import Mathlib

/-!
Verification of the search-and-summarize query pipeline of the video chat
repository (src/main.py, src/1_Chat.py, src/pages/2_Videos.py).

The pipeline's own logic — pagination arithmetic, year-range filter
construction, year shaping of returned records, prompt composition for the
summarizer, and the per-turn control flow of main() — is embedded below as
pure Lean functions.  The two external services (Cortex semantic search and
Cortex Complete) are modelled as explicit environments: a function giving
the full ordered match list of a query under a filter, plus a failure flag
standing for a raised transport or service exception.  Side effects that
the claims talk about (whether the network search call was issued, whether
an error banner was shown, what request parameters were sent) are recorded
as observable fields of the result structures.
-/

namespace VideoChat

/-- A cell of the VIDEO_YEAR column as pandas sees it.
`dateStr y m d` is the stored TIMESTAMP_NTZ value rendered as a date string
(the table is loaded with January-1st dates, and Cortex returns the column
textually); `intVal n` is a plain integer, as produced by `.dt.year`.
`pd.to_datetime` parses a date string to its calendar date, but interprets
a plain integer as a count of NANOSECONDS since the Unix epoch
(1970-01-01), pandas' default unit. -/
inductive TsValue where
  | dateStr (y m d : Nat)
  | intVal (n : Nat)
deriving DecidableEq, Repr, Inhabited

/-- One row of the ted_talks search result, with the four requested columns
(src/main.py line 180). -/
structure RawRecord where
  VIDEO_TITLE : String
  VIDEO_DESCRIPTION : String
  THUMBNAIL : Option String
  VIDEO_YEAR : TsValue
deriving DecidableEq, Repr, Inhabited

/-- Nanoseconds in one day: pandas timestamps count nanoseconds. -/
def nsPerDay : Nat := 86400 * 1000000000

/-- Calendar year of the civil (proleptic Gregorian) date lying `d` days
after 1970-01-01.  Standard days-from-civil inversion; `d = 0` gives 1970. -/
def civilYearOfDay (d : Nat) : Nat :=
  let z := d + 719468
  let era := z / 146097
  let doe := z % 146097
  let yoe := (doe - doe / 1460 + doe / 36524 - doe / 146096) / 365
  let y := yoe + era * 400
  let doy := doe - (365 * yoe + yoe / 4 - yoe / 100)
  let mp := (5 * doy + 2) / 153
  let m := if mp < 10 then mp + 3 else mp - 9
  if m ≤ 2 then y + 1 else y

/-- `pd.to_datetime(v).year`: a date string keeps its calendar year; an
integer is read as nanoseconds since the epoch and the year of that
timestamp is returned (src/main.py line 191). -/
def toDatetimeYear : TsValue → Nat
  | .dateStr y _ _ => y
  | .intVal n => civilYearOfDay (n / nsPerDay)

/-- One record under the Result Shaper: VIDEO_YEAR is replaced by the
integer year `pd.to_datetime(...).dt.year` computes for it. -/
def shapeRecord (r : RawRecord) : RawRecord :=
  { r with VIDEO_YEAR := TsValue.intVal (toDatetimeYear r.VIDEO_YEAR) }

/-- src/main.py lines 189-191: `results_df['VIDEO_YEAR'] =
pd.to_datetime(results_df['VIDEO_YEAR']).dt.year`, applied columnwise.
The source guards with `if not results_df.empty and 'VIDEO_YEAR' in
results_df.columns`; on an empty batch the guard skips the assignment and
`map` over `[]` is likewise the identity, and the column is always present
on a non-empty batch of four-field records. -/
def convertYears (df : List RawRecord) : List RawRecord :=
  df.map shapeRecord

/-- src/main.py line 25. -/
def MAX_RESULTS_PER_PAGE : Nat := 50

/-- Zero-padded rendering of a year, Python `f"{n:04d}"`. -/
def pad4 (n : Nat) : String :=
  let s := toString n
  if s.length ≥ 4 then s else String.mk (List.replicate (4 - s.length) '0') ++ s

/-- The filter object src/main.py lines 170-175 builds:
`{"@and": [{"@gte": {"VIDEO_YEAR": min_date}}, {"@lte": {"VIDEO_YEAR":
max_date}}]}` — a conjunction of an inclusive lower and an inclusive upper
date bound on VIDEO_YEAR, kept here as the two bound strings. -/
structure FilterObj where
  gteVideoYear : String
  lteVideoYear : String
deriving DecidableEq, Repr

/-- src/main.py lines 162-175.  `filter_obj` starts as None; when a year
range is supplied (`if year_range:` — a 2-tuple is always truthy in
Python, so only None is skipped) the bound strings are formatted, and the
filter is assigned only under `if min_year and max_year:`, i.e. only when
both years are non-zero (Python truthiness of int). -/
def mkFilter (year_range : Option (Nat × Nat)) : Option FilterObj :=
  match year_range with
  | none => none
  | some (min_year, max_year) =>
    let min_date := pad4 min_year ++ "-01-01"
    let max_date := pad4 max_year ++ "-12-31"
    if min_year ≠ 0 ∧ max_year ≠ 0 then
      some { gteVideoYear := min_date, lteVideoYear := max_date }
    else none

/-- The external Cortex search service.  `allMatches q f` is the full
ordered list of records of the index matching query `q` under filter `f`
(relevance order is the service's business); the service call returns the
`offset`/`limit` window of it.  `fails = true` means the search call
raises a transport or service exception. -/
structure SearchEnv where
  allMatches : String → Option FilterObj → List RawRecord
  fails : Bool

/-- Total match count of a query against the index under a filter: the
quantity a true pagination total would report. -/
def totalMatchCount (env : SearchEnv) (query : String) (f : Option FilterObj) : Nat :=
  (env.allMatches query f).length

/-- Everything observable about one `semantic_search` call: the returned
pair `(results_df | None, total_count)`, whether `st.error` was shown,
whether the network search call was issued, and the request parameters it
carried. -/
structure SearchOutcome where
  results : Option (List RawRecord)
  total_count : Nat
  errorShown : Bool
  networkCalled : Bool
  requestOffset : Nat
  requestLimit : Nat
  requestFilter : Option FilterObj
deriving Repr

/-- src/main.py lines 150-199 (`semantic_search`).  Computes
`offset = (page - 1) * MAX_RESULTS_PER_PAGE`, builds the optional year
filter, and issues the search with `limit=MAX_RESULTS_PER_PAGE`,
`offset=offset`, `filter=filter_obj` — unconditionally: the function never
validates the year range.  On an exception the `except` branch shows
`st.error` and returns `None, 0`.  On success the page of raw results is
year-shaped and returned together with `total_count =
len(response.results)`, the length of the CURRENT PAGE. -/
def semantic_search (env : SearchEnv) (query : String) (page : Nat)
    (year_range : Option (Nat × Nat)) : SearchOutcome :=
  let offset := (page - 1) * MAX_RESULTS_PER_PAGE
  let filter_obj := mkFilter year_range
  if env.fails then
    { results := none
      total_count := 0
      errorShown := true
      networkCalled := true
      requestOffset := offset
      requestLimit := MAX_RESULTS_PER_PAGE
      requestFilter := filter_obj }
  else
    let raw := ((env.allMatches query filter_obj).drop offset).take MAX_RESULTS_PER_PAGE
    { results := some (convertYears raw)
      total_count := raw.length
      errorShown := false
      networkCalled := true
      requestOffset := offset
      requestLimit := MAX_RESULTS_PER_PAGE
      requestFilter := filter_obj }

/-- One numbered entry of the summary prompt, src/main.py lines 100-102. -/
def talkEntry (idx : Nat) (r : RawRecord) : String :=
  "Talk " ++ toString (idx + 1) ++ ":\nTitle: " ++ r.VIDEO_TITLE
    ++ "\nDescription: " ++ r.VIDEO_DESCRIPTION

/-- src/main.py lines 97-102: `for idx in range(min(3, len(results_df))):
videos.append(...)` with `row = results_df.iloc[idx]`. -/
def promptVideos (results_df : List RawRecord) : List String :=
  (List.range (min 3 results_df.length)).map fun idx =>
    talkEntry idx (results_df.getD idx default)

/-- The fixed instruction heading the summary prompt, src/main.py line 104. -/
def SUMMARY_HEADER : String :=
  "Here are the top 3 TED talks from a search. Please provide a coherent summary that connects these talks and their main themes in 3-4 sentences:\n\n"

/-- src/main.py lines 104-106: the header followed by the numbered entries
joined with `chr(10)` (newline). -/
def summaryPrompt (results_df : List RawRecord) : String :=
  SUMMARY_HEADER ++ String.intercalate "\n" (promptVideos results_df)

/-- One element of the list `get_top_results_summary` returns. -/
structure SummaryItem where
  title : String
  summary : String
deriving DecidableEq, Repr, Inhabited

/-- The external Cortex Complete service: `complete` maps the prompt to the
model response; `fails = true` means the call (or anything else in the try
block) raises. -/
structure CompletionEnv where
  complete : String → String
  fails : Bool

/-- src/main.py lines 91-120 (`get_top_results_summary`).  Builds the
single prompt, calls `Complete(model="mistral-large2", prompt=prompt)`, and
returns a one-element list holding the stripped response; any exception is
caught, an error is shown, and None is returned. -/
def get_top_results_summary (cenv : CompletionEnv) (results_df : List RawRecord) :
    Option (List SummaryItem) :=
  if cenv.fails then none
  else some [{ title := "Top 3 Talks Summary",
               summary := (cenv.complete (summaryPrompt results_df)).trim }]

/-- src/main.py line 278. -/
def FALLBACK_NO_RESULTS : String :=
  "I couldn\x27t find any relevant videos for your query."

/-- src/main.py line 276 (shown via `st.error`). -/
def FALLBACK_NO_SUMMARY : String := "Could not generate summary."

/-- Everything observable about one chat turn: the message rendered in the
assistant slot, whether the summarization (completion) path was entered,
and whether a search-level error banner appeared. -/
structure TurnResult where
  assistantContent : String
  completionCalled : Bool
  searchErrorShown : Bool
deriving Repr

/-- src/main.py lines 251-280: the body run for one submitted chat prompt.
`results, total_count = semantic_search(prompt, 1, selected_years)`; if
`results is not None and not results.empty` the summary is generated
(`if summaries:` — None and the empty list are both falsy) and its text
rendered, the failure case rendering the fixed `st.error` fallback;
otherwise the fixed no-relevant-videos message is rendered.  Every branch
ends with a rendered message; nothing escapes. -/
def chatTurn (senv : SearchEnv) (cenv : CompletionEnv) (prompt : String)
    (selected_years : Option (Nat × Nat)) : TurnResult :=
  let sr := semantic_search senv prompt 1 selected_years
  match sr.results with
  | some results =>
    if results.isEmpty then
      { assistantContent := FALLBACK_NO_RESULTS
        completionCalled := false
        searchErrorShown := sr.errorShown }
    else
      match get_top_results_summary cenv results with
      | some summaries =>
        if summaries.isEmpty then
          { assistantContent := FALLBACK_NO_SUMMARY
            completionCalled := true
            searchErrorShown := sr.errorShown }
        else
          { assistantContent := summaries.headI.summary
            completionCalled := true
            searchErrorShown := sr.errorShown }
      | none =>
        { assistantContent := FALLBACK_NO_SUMMARY
          completionCalled := true
          searchErrorShown := sr.errorShown }
  | none =>
    { assistantContent := FALLBACK_NO_RESULTS
      completionCalled := false
      searchErrorShown := sr.errorShown }

/-! ### Concrete environments and batches used to instantiate the theorems -/

/-- A concrete record as the search service returns it: the stored
TIMESTAMP_NTZ is a January-1st date, per the ingestion step. -/
def sampleRecord : RawRecord :=
  { VIDEO_TITLE := "Sample talk"
    VIDEO_DESCRIPTION := "About things"
    THUMBNAIL := none
    VIDEO_YEAR := .dateStr 2020 1 1 }

/-- A healthy search service whose index matches `n` records for every
query and filter. -/
def envMatching (n : Nat) : SearchEnv :=
  { allMatches := fun _ _ => List.replicate n sampleRecord, fails := false }

/-- A search service whose call raises a transport error. -/
def envFailing : SearchEnv :=
  { allMatches := fun _ _ => [], fails := true }

/-- A healthy completion service. -/
def cenvOK : CompletionEnv :=
  { complete := fun _ => "  A synthesis of the talks.  ", fails := false }

/-- A completion service whose call raises. -/
def cenvFailing : CompletionEnv :=
  { complete := fun _ => "", fails := true }

/-- A batch whose VIDEO_YEAR field is already a plain year integer, i.e.
the Result Shaper's own output shape. -/
def alreadyShapedBatch : List RawRecord :=
  [{ VIDEO_TITLE := "Sample talk"
     VIDEO_DESCRIPTION := "About things"
     THUMBNAIL := none
     VIDEO_YEAR := .intVal 2020 }]

/-- Four distinct shaped records, a batch larger than the summary cutoff. -/
def fourBatch : List RawRecord :=
  [{ VIDEO_TITLE := "Alpha", VIDEO_DESCRIPTION := "first", THUMBNAIL := none,
     VIDEO_YEAR := .intVal 2001 },
   { VIDEO_TITLE := "Beta", VIDEO_DESCRIPTION := "second", THUMBNAIL := none,
     VIDEO_YEAR := .intVal 2002 },
   { VIDEO_TITLE := "Gamma", VIDEO_DESCRIPTION := "third", THUMBNAIL := none,
     VIDEO_YEAR := .intVal 2003 },
   { VIDEO_TITLE := "Delta", VIDEO_DESCRIPTION := "fourth", THUMBNAIL := none,
     VIDEO_YEAR := .intVal 2004 }]

/-! ### Shared helper lemmas -/

/-- Indexing a mapped range: the `idx`-th element of
`(List.range m).map g` is `g idx`. -/
theorem getD_range_map {β : Type} (g : Nat → β) (d : β) (m i : Nat) (h : i < m) :
    ((List.range m).map g).getD i d = g i := by
  simp [List.getD_eq_getElem?_getD, List.getElem?_map, List.getElem?_range, h]

/-- Day zero of the epoch lies in 1970. -/
theorem civilYearOfDay_zero : civilYearOfDay 0 = 1970 := by decide

/-! ### Claim C1 -/

/-- Claim C1 counterexample: at query "climate" with year range
(2020, 2015), where min_year > max_year, `semantic_search` issues the
network search call and reports no validation error — refuting the claim
that it fails fast without calling the network. -/
theorem c1_counterexample :
    (semantic_search (envMatching 5) "climate" 1 (some (2020, 2015))).networkCalled = true ∧
    (semantic_search (envMatching 5) "climate" 1 (some (2020, 2015))).errorShown = false := by
  constructor <;> rfl

/-- Claim C1 (amended): `semantic_search` performs no min_year > max_year
validation.  For every inverted range with both years non-zero it still
issues the search call, shows no error, and carries the (unsatisfiable)
conjunction filter [min_year-01-01, max_year-12-31]. -/
theorem c1_no_validation_on_inverted_range (env : SearchEnv) (query : String)
    (page mn mx : Nat) (hf : env.fails = false) (h1 : mn ≠ 0) (h2 : mx ≠ 0)
    (hgt : mx < mn) :
    (semantic_search env query page (some (mn, mx))).networkCalled = true ∧
    (semantic_search env query page (some (mn, mx))).errorShown = false ∧
    (semantic_search env query page (some (mn, mx))).requestFilter =
      some { gteVideoYear := pad4 mn ++ "-01-01", lteVideoYear := pad4 mx ++ "-12-31" } := by
  simp [semantic_search, mkFilter, hf, h1, h2]

/-- Claim C1 witness: the amended theorem at the concrete inverted range
(2020, 2015). -/
theorem c1_witness :
    (semantic_search (envMatching 5) "q" 1 (some (2020, 2015))).networkCalled = true ∧
    (semantic_search (envMatching 5) "q" 1 (some (2020, 2015))).errorShown = false ∧
    (semantic_search (envMatching 5) "q" 1 (some (2020, 2015))).requestFilter =
      some { gteVideoYear := pad4 2020 ++ "-01-01", lteVideoYear := pad4 2015 ++ "-12-31" } :=
  c1_no_validation_on_inverted_range (envMatching 5) "q" 1 2020 2015 rfl
    (by decide) (by decide) (by decide)

/-! ### Claim C2 -/

/-- Claim C2: when the external search call raises, `semantic_search`
catches the exception, shows a non-fatal error message, and returns
`None, 0` — no records and total_count 0 — and the chat turn still resolves
to the fixed no-results message without issuing a completion call. -/
theorem c2_transport_error_yields_empty (senv : SearchEnv) (cenv : CompletionEnv)
    (query : String) (page : Nat) (yr : Option (Nat × Nat))
    (hf : senv.fails = true) :
    (semantic_search senv query page yr).results = none ∧
    (semantic_search senv query page yr).total_count = 0 ∧
    (semantic_search senv query page yr).errorShown = true ∧
    (chatTurn senv cenv query yr).assistantContent = FALLBACK_NO_RESULTS ∧
    (chatTurn senv cenv query yr).completionCalled = false := by
  simp [semantic_search, chatTurn, hf]

/-- Claim C2 witness: the theorem at a concrete failing service. -/
theorem c2_witness :
    (semantic_search envFailing "q" 1 none).results = none ∧
    (semantic_search envFailing "q" 1 none).total_count = 0 ∧
    (semantic_search envFailing "q" 1 none).errorShown = true ∧
    (chatTurn envFailing cenvOK "q" none).assistantContent = FALLBACK_NO_RESULTS ∧
    (chatTurn envFailing cenvOK "q" none).completionCalled = false :=
  c2_transport_error_yields_empty envFailing cenvOK "q" 1 none rfl

/-! ### Claim C3 -/

/-- Claim C3 counterexample: the year range (0, 2020) satisfies
min_year ≤ max_year and is supplied, yet the request carries no date
filter, because the filter is built only when both years are truthy. -/
theorem c3_counterexample :
    (0 : Nat) ≤ 2020 ∧
    (semantic_search (envMatching 5) "q" 1 (some (0, 2020))).requestFilter = none := by
  exact ⟨by decide, rfl⟩

/-- Claim C3 (amended): for every supplied year pair with
1 ≤ min_year ≤ max_year (both non-zero), the request carries the
conjunction of the inclusive bounds min_year-01-01 and max_year-12-31 on
VIDEO_YEAR; with no year range supplied the request carries no filter. -/
theorem c3_filter_is_inclusive_date_conjunction (env : SearchEnv) (query : String)
    (page mn mx : Nat) (h1 : 1 ≤ mn) (hle : mn ≤ mx) :
    (semantic_search env query page (some (mn, mx))).requestFilter =
      some { gteVideoYear := pad4 mn ++ "-01-01", lteVideoYear := pad4 mx ++ "-12-31" } ∧
    (semantic_search env query page none).requestFilter = none := by
  have h1n : mn ≠ 0 := by omega
  have h2n : mx ≠ 0 := by omega
  constructor
  · cases hf : env.fails <;> simp [semantic_search, mkFilter, hf, h1n, h2n]
  · cases hf : env.fails <;> simp [semantic_search, mkFilter, hf]

/-- Claim C3 witness: the amended theorem at the range (2015, 2020). -/
theorem c3_witness :
    (semantic_search (envMatching 5) "q" 1 (some (2015, 2020))).requestFilter =
      some { gteVideoYear := pad4 2015 ++ "-01-01", lteVideoYear := pad4 2020 ++ "-12-31" } ∧
    (semantic_search (envMatching 5) "q" 1 none).requestFilter = none :=
  c3_filter_is_inclusive_date_conjunction (envMatching 5) "q" 1 2015 2020
    (by decide) (by decide)

/-! ### Claim C4 -/

/-- Claim C4 (the code deviates): against an index matching 60 records,
the claim requires total_count = 60, the total match count; the code
computes `total_count = len(response.results)`, the size of the 50-record
page, so `semantic_search` reports 50 ≠ 60. -/
theorem c4_total_count_is_page_length_not_total :
    totalMatchCount (envMatching 60) "q" (mkFilter none) = 60 ∧
    (semantic_search (envMatching 60) "q" 1 none).total_count = 50 ∧
    (semantic_search (envMatching 60) "q" 1 none).total_count ≠
      totalMatchCount (envMatching 60) "q" (mkFilter none) := by
  refine ⟨by decide, by decide, by decide⟩

/-! ### Claim C5 -/

/-- Claim C5 counterexample: applying the year conversion to a batch whose
VIDEO_YEAR is already the plain year integer 2020 does not leave the batch
unchanged — pandas reinterprets the integer as 2020 nanoseconds after the
epoch and rewrites the year to 1970. -/
theorem c5_counterexample :
    convertYears alreadyShapedBatch ≠ alreadyShapedBatch ∧
    convertYears alreadyShapedBatch =
      [{ VIDEO_TITLE := "Sample talk"
         VIDEO_DESCRIPTION := "About things"
         THUMBNAIL := none
         VIDEO_YEAR := .intVal 1970 }] := by
  constructor <;> decide

/-- Claim C5 (amended): the year conversion is not idempotent.  Reapplied
to a batch whose year fields are already plain year integers (any value
below one day of nanoseconds, so every calendar year), it rewrites every
year to 1970, the epoch year; it is a no-op only where the year already
reads 1970. -/
theorem c5_reapplication_resets_years_to_epoch (batch : List RawRecord)
    (h : ∀ r ∈ batch, ∃ y, y < nsPerDay ∧ r.VIDEO_YEAR = TsValue.intVal y) :
    convertYears batch =
      batch.map (fun r => { r with VIDEO_YEAR := TsValue.intVal 1970 }) := by
  unfold convertYears
  apply List.map_congr_left
  intro r hr
  obtain ⟨y, hy, hsome⟩ := h r hr
  unfold shapeRecord
  rw [hsome]
  have hdiv : y / nsPerDay = 0 := Nat.div_eq_of_lt hy
  simp [toDatetimeYear, hdiv, civilYearOfDay_zero]

/-- Claim C5 witness: the amended theorem at the concrete already-shaped
batch. -/
theorem c5_witness :
    convertYears alreadyShapedBatch =
      alreadyShapedBatch.map (fun r => { r with VIDEO_YEAR := TsValue.intVal 1970 }) :=
  c5_reapplication_resets_years_to_epoch alreadyShapedBatch (by
    intro r hr
    simp only [alreadyShapedBatch, List.mem_singleton] at hr
    exact ⟨2020, by decide, by rw [hr]⟩)

/-! ### Claim C6 -/

/-- Claim C6: the summary prompt enumerates exactly min(3, batch size)
records; the i-th enumerated entry is the batch's i-th record, rendered
under the numbered label "Talk i+1" with its title and description; and
the prompt is the fixed header followed by those entries joined by
newlines. -/
theorem c6_prompt_enumerates_min3_in_order (batch : List RawRecord) :
    (promptVideos batch).length = min 3 batch.length ∧
    (∀ i, i < min 3 batch.length →
      (promptVideos batch).getD i "" = talkEntry i (batch.getD i default)) ∧
    summaryPrompt batch = SUMMARY_HEADER ++ String.intercalate "\n" (promptVideos batch) := by
  refine ⟨?_, ?_, rfl⟩
  · simp [promptVideos]
  · intro i hi
    unfold promptVideos
    exact getD_range_map _ _ _ _ hi

/-- Claim C6 witness: the theorem at a concrete 4-record batch — three
entries, the second being the batch's second record under label
"Talk 2". -/
theorem c6_witness :
    (promptVideos fourBatch).length = min 3 fourBatch.length ∧
    (promptVideos fourBatch).getD 1 "" = talkEntry 1 (fourBatch.getD 1 default) :=
  ⟨(c6_prompt_enumerates_min3_in_order fourBatch).1,
   (c6_prompt_enumerates_min3_in_order fourBatch).2.1 1 (by decide)⟩

/-! ### Claim C7 -/

/-- Claim C7: on a turn whose search yields zero records (either the
None of a failed call or an empty page), no completion call is issued and
the assistant response is the fixed no-relevant-results message. -/
theorem c7_zero_records_skip_summary (senv : SearchEnv) (cenv : CompletionEnv)
    (prompt : String) (yr : Option (Nat × Nat))
    (hz : (semantic_search senv prompt 1 yr).results = none ∨
          (semantic_search senv prompt 1 yr).results = some []) :
    (chatTurn senv cenv prompt yr).completionCalled = false ∧
    (chatTurn senv cenv prompt yr).assistantContent = FALLBACK_NO_RESULTS := by
  simp only [chatTurn]
  rcases hz with h | h <;> rw [h] <;> simp

/-- Claim C7 witness: the theorem at a service matching no records. -/
theorem c7_witness :
    (chatTurn (envMatching 0) cenvOK "q" none).completionCalled = false ∧
    (chatTurn (envMatching 0) cenvOK "q" none).assistantContent = FALLBACK_NO_RESULTS :=
  c7_zero_records_skip_summary (envMatching 0) cenvOK "q" none (Or.inr rfl)

/-! ### Claim C8 -/

/-- Claim C8: for every page ≥ 1, the request offset equals
(page − 1) × page_size where page_size is the request limit, and the limit
is MAX_RESULTS_PER_PAGE, never exceeding 50. -/
theorem c8_offset_invariant (env : SearchEnv) (query : String) (page : Nat)
    (yr : Option (Nat × Nat)) (hp : 1 ≤ page) :
    (semantic_search env query page yr).requestOffset =
      (page - 1) * (semantic_search env query page yr).requestLimit ∧
    (semantic_search env query page yr).requestLimit = MAX_RESULTS_PER_PAGE ∧
    (semantic_search env query page yr).requestLimit ≤ 50 := by
  cases hf : env.fails <;> simp [semantic_search, hf, MAX_RESULTS_PER_PAGE]

/-- Claim C8 witness: the theorem at page 3 — offset 100 with limit 50. -/
theorem c8_witness :
    (semantic_search (envMatching 5) "q" 3 none).requestOffset =
      (3 - 1) * (semantic_search (envMatching 5) "q" 3 none).requestLimit ∧
    (semantic_search (envMatching 5) "q" 3 none).requestLimit = MAX_RESULTS_PER_PAGE ∧
    (semantic_search (envMatching 5) "q" 3 none).requestLimit ≤ 50 :=
  c8_offset_invariant (envMatching 5) "q" 3 none (by decide)

/-! ### Claim C9 -/

/-- Claim C9: when the completion call fails, `get_top_results_summary`
returns no summary (None), and on a turn with a non-empty search result
the caller renders the fixed fallback message, so the turn still resolves
to a renderable message. -/
theorem c9_summary_failure_fallback (senv : SearchEnv) (cenv : CompletionEnv)
    (prompt : String) (yr : Option (Nat × Nat)) (results : List RawRecord)
    (hc : cenv.fails = true)
    (hs : (semantic_search senv prompt 1 yr).results = some results)
    (hne : results ≠ []) :
    get_top_results_summary cenv results = none ∧
    (chatTurn senv cenv prompt yr).assistantContent = FALLBACK_NO_SUMMARY := by
  have hsum : get_top_results_summary cenv results = none := by
    simp [get_top_results_summary, hc]
  refine ⟨hsum, ?_⟩
  simp only [chatTurn]
  rw [hs]
  simp [List.isEmpty_iff, hne, hsum]

/-- Claim C9 witness: the theorem at a failing completion service and a
one-record search result. -/
theorem c9_witness :
    get_top_results_summary cenvFailing alreadyShapedBatch = none ∧
    (chatTurn (envMatching 1) cenvFailing "q" none).assistantContent = FALLBACK_NO_SUMMARY :=
  c9_summary_failure_fallback (envMatching 1) cenvFailing "q" none alreadyShapedBatch
    rfl (by decide) (by decide)

/-! ### Claim C10 -/

/-- Claim C10: when a year range is supplied but min_year or max_year is 0
(falsy in Python), the date filter is silently omitted from the search
request, because the filter is assigned only under
`if min_year and max_year:`. -/
theorem c10_falsy_year_omits_filter (env : SearchEnv) (query : String)
    (page mn mx : Nat) (h : mn = 0 ∨ mx = 0) :
    mkFilter (some (mn, mx)) = none ∧
    (semantic_search env query page (some (mn, mx))).requestFilter = none := by
  have hm : mkFilter (some (mn, mx)) = none := by
    rcases h with h | h <;> simp [mkFilter, h]
  refine ⟨hm, ?_⟩
  cases hf : env.fails <;> simp [semantic_search, hf, hm]

/-- Claim C10 witness: the theorem at the supplied range (0, 2020). -/
theorem c10_witness :
    mkFilter (some (0, 2020)) = none ∧
    (semantic_search (envMatching 5) "q" 1 (some (0, 2020))).requestFilter = none :=
  c10_falsy_year_omits_filter (envMatching 5) "q" 1 0 2020 (Or.inl rfl)

end VideoChat
